import Mathlib

/-!
Verification of the file-placement logic of the Smart File Organizer
(`sorter.py`).

The Python module is embedded shallowly:

* A `Datetime` carries the `year`/`month`/`day` fields the sorter reads.
* The filesystem is a state `FS`: the set of existing file paths, the set
  of existing directories, and two fault sets that say which `os.makedirs`
  and `shutil.move` calls raise an `OSError`.  Exceptions become `Except`
  values; every caught exception in the source corresponds to a pattern
  match here.
* `os.path.join` is modelled as concatenation with `"/"` (the components
  the sorter joins are relative and non-empty, and the configured roots do
  not end in a slash, so this agrees with the library call on every input
  the program builds).
* Python's `str(n)` / f-string interpolation of an integer is `Nat.repr`.
-/

/-- The fields of a Python `datetime` the sorter reads. -/
structure Datetime where
  year : Nat
  month : Nat
  day : Nat
deriving DecidableEq

/-- The filesystem state visible to the sorter, plus fault sets describing
which calls fail with an `OSError`-like exception. -/
structure FS where
  files : List String
  dirs : List String
  mkdirFails : List String
  moveFails : List String
deriving DecidableEq

/-- All existing entries (files and directories). -/
def fsEntries (fs : FS) : List String := fs.files ++ fs.dirs

/-- Model of `os.path.exists`: true for existing files and directories. -/
def os_path_exists (fs : FS) (p : String) : Bool :=
  fs.files.contains p || fs.dirs.contains p

/-- Model of `os.makedirs(path, exist_ok=True)`: raises iff `path` is in the fault
set, otherwise records the directory. -/
def os_makedirs (fs : FS) (path : String) : Except String FS :=
  if path ∈ fs.mkdirFails then .error path
  else .ok { fs with dirs := path :: fs.dirs }

/-- Model of `shutil.move(src, dst)`: raises iff `src` is in the fault set,
otherwise the file now exists at `dst` and no longer at `src`. -/
def shutil_move (fs : FS) (src dst : String) : Except String FS :=
  if src ∈ fs.moveFails then .error src
  else .ok { fs with files := dst :: fs.files.erase src }

/-- Model of `os.path.join(a, b)` for a relative, non-empty `b` and an `a` not
ending in a separator. -/
def os_path_join (a b : String) : String := a ++ "/" ++ b

/-- Rightmost index of `c` in the character list (Python `str.rfind`),
`-1` when absent. -/
def rfindAux (c : Char) : List Char → Nat → Int → Int
  | [], _, acc => acc
  | x :: xs, i, acc => rfindAux c xs (i + 1) (if x = c then (i : Int) else acc)

/-- Python `p.rfind(c)`. -/
def str_rfind (p : String) (c : Char) : Int := rfindAux c p.data 0 (-1)

/-- Model of `os.path.basename`: everything after the last `/`. -/
def os_path_basename (p : String) : String :=
  String.mk (p.data.drop (str_rfind p '/' + 1).toNat)

/-- Model of `os.path.splitext`: split at the last dot of the basename, provided a
non-dot character of the basename precedes it. -/
def os_path_splitext (p : String) : String × String :=
  let sepIndex := str_rfind p '/'
  let dotIndex := str_rfind p '.'
  if dotIndex > sepIndex then
    if ((p.data.drop (sepIndex + 1).toNat).take (dotIndex - sepIndex - 1).toNat).any
        (fun ch => ch ≠ '.') then
      (String.mk (p.data.take dotIndex.toNat), String.mk (p.data.drop dotIndex.toNat))
    else (p, "")
  else (p, "")

/-- Python `name.endswith(suffix)`. -/
def str_endswith (s suffix : String) : Bool := List.isSuffixOf suffix.data s.data

/-- Source constant `DOCUMENT_TYPES`. -/
def DOCUMENT_TYPES : List String := ["Invoices", "Protocols", "Reports"]

/-- Source constant `CANDIDATE_LABELS`. -/
def CANDIDATE_LABELS : List String := ["Invoice", "Protocol", "Report"]

/-- Source constant `LABEL_TO_DIR`. -/
def LABEL_TO_DIR : List (String × String) :=
  [("Invoice", "Invoices"), ("Protocol", "Protocols"), ("Report", "Reports")]

/-- Python `dict.get(key, default)` on an association list. -/
def dict_get (d : List (String × String)) (key default : String) : String :=
  match d.lookup key with
  | some v => v
  | none => default

/-- The lookup `LABEL_TO_DIR.get(doc_type, doc_type + "s")` from
`move_file_to_correct_directory`. -/
def label_dir (doc_type : String) : String :=
  dict_get LABEL_TO_DIR doc_type (doc_type ++ "s")

/-- Source function `get_week_of_month`. -/
def get_week_of_month (date : Datetime) : Nat :=
  min ((date.day - 1) / 7 + 1) 5

/-- The `target_dir` computed by `move_file_to_correct_directory`:
`os.path.join(OUTPUT_DIR, dir_name, str(year), f"Month_{month}", f"Week_{week}")`. -/
def plan_target_dir (output_dir doc_type : String) (date : Datetime) : String :=
  os_path_join
    (os_path_join
      (os_path_join
        (os_path_join output_dir (label_dir doc_type))
        (Nat.repr date.year))
      ("Month_" ++ Nat.repr date.month))
    ("Week_" ++ Nat.repr (get_week_of_month date))

/-! ### Decimal rendering

`str(n)` in the source is `Nat.repr` here.  The duplicate-resolution loop
terminates because distinct counters render to distinct strings, so we
prove `Nat.repr` injective via the digit-list characterisation of
`Nat.toDigitsCore`. -/

/-- The decimal digit characters of `n`, most significant first. -/
def digitsChars (n : Nat) : List Char :=
  if n < 10 then [Nat.digitChar n]
  else digitsChars (n / 10) ++ [Nat.digitChar (n % 10)]
termination_by n
decreasing_by exact Nat.div_lt_self (by omega) (by omega)

/-- The candidate name `f"{base_name}_{counter}{ext}"` probed by the
duplicate-handling loop. -/
def dupCandidate (base ext : String) (counter : Nat) : String :=
  base ++ "_" ++ Nat.repr counter ++ ext

/-- The `while os.path.exists(...): counter += 1` loop of
`move_file_to_correct_directory`, fuelled.  The fuel is an artifact of the
embedding: `findCounter_spec` shows that fuel `|files| + |dirs| + 1` is
never exhausted, which is how the Python loop terminates. -/
def findCounter (fs : FS) (base ext : String) : Nat → Nat → Nat
  | 0, counter => counter
  | fuel + 1, counter =>
    if os_path_exists fs (dupCandidate base ext counter) then
      findCounter fs base ext fuel (counter + 1)
    else counter

/-- The duplicate-handling block of `move_file_to_correct_directory`:
keep `target_file_path` if unused, otherwise split it with
`os.path.splitext` and probe `stem_1.ext`, `stem_2.ext`, … -/
def resolve_duplicate (fs : FS) (target : String) : String :=
  if os_path_exists fs target then
    dupCandidate (os_path_splitext target).1 (os_path_splitext target).2
      (findCounter fs (os_path_splitext target).1 (os_path_splitext target).2
        ((fsEntries fs).length + 1) 1)
  else target

/-- The result dict of the zero-shot classifier: ranked labels with their
confidence scores (spec §6: a black-box returning labels ranked by
confidence). -/
structure ClassifierResult where
  labels : List String
  scores : List Rat

/-- Source function `classify_document`, with the text extractor and the classifier
as black-box parameters (spec §1 lists both as external collaborators).
An exception raised by the classifier is the `.error` case; the
`result['labels'][0]` and `result['scores'][0]` lookups raise an
`IndexError` (also caught by the same `except`) when a list is empty,
hence the final pattern match. -/
def classify_document (extract : String → String)
    (classifier : String → List String → Except String ClassifierResult)
    (file_path : String) : Option String :=
  let text := extract file_path
  if text = "" then none
  else
    match classifier text CANDIDATE_LABELS with
    | .error _ => none
    | .ok result =>
      match result.labels, result.scores with
      | doc_type :: _, _ :: _ => some doc_type
      | _, _ => none

/-- Source function `move_file_to_correct_directory`.  The pair holds the Python
return value (target path, or `None` on skip and on either caught
`OSError`) and the filesystem state after the call. -/
def move_file_to_correct_directory (fs : FS) (output_dir file_path : String)
    (doc_type : Option String) (date : Datetime) : Option String × FS :=
  match doc_type with
  | none => (none, fs)
  | some dt =>
    let target_dir := plan_target_dir output_dir dt date
    match os_makedirs fs target_dir with
    | .error _ => (none, fs)
    | .ok fs1 =>
      let target_file_path := os_path_join target_dir (os_path_basename file_path)
      let final_path := resolve_duplicate fs1 target_file_path
      match shutil_move fs1 file_path final_path with
      | .error _ => (none, fs1)
      | .ok fs2 => (some final_path, fs2)

/-- One iteration of the `for file_name in files` loop of
`sorter.process_files`; `acc` is the `processed` counter plus the
filesystem.  `if result:` in Python counts any truthy (non-`None`,
non-empty) returned path. -/
def process_one_file (input_dir output_dir : String) (extract : String → String)
    (classifier : String → List String → Except String ClassifierResult)
    (date : Datetime) (acc : Nat × FS) (file_name : String) : Nat × FS :=
  let file_path := os_path_join input_dir file_name
  match classify_document extract classifier file_path with
  | none => acc
  | some doc_type =>
    let res := move_file_to_correct_directory acc.2 output_dir file_path (some doc_type) date
    match res.1 with
    | some s => (if s = "" then acc.1 else acc.1 + 1, res.2)
    | none => (acc.1, res.2)

/-- Source function `process_files`.  Here `listing` is the outcome of the
`os.listdir(INPUT_DIR)` call (`.error` when it raises an `OSError`); the
processing date is the `datetime.now()` of the cycle. -/
def process_files (fs : FS) (listing : Except String (List String))
    (input_dir output_dir : String) (extract : String → String)
    (classifier : String → List String → Except String ClassifierResult)
    (date : Datetime) : Nat × FS :=
  match listing with
  | .error _ => (0, fs)
  | .ok names =>
    let files := names.filter (fun f => str_endswith f ".pdf")
    if files.isEmpty then (0, fs)
    else files.foldl (process_one_file input_dir output_dir extract classifier date) (0, fs)

/-- The directories visited by the loop nest of
`sorter.setup_directory_structure`, in creation order. -/
def setup_paths (output_dir : String) : List String :=
  DOCUMENT_TYPES.flatMap (fun doc_type =>
    (List.range' 2020 11).flatMap (fun year =>
      (List.range' 1 12).flatMap (fun month =>
        (List.range' 1 5).map (fun week =>
          os_path_join
            (os_path_join
              (os_path_join (os_path_join output_dir doc_type) (Nat.repr year))
              ("Month_" ++ Nat.repr month))
            ("Week_" ++ Nat.repr week)))))

/-- Source function `setup_directory_structure`: `os.makedirs(..., exist_ok=True)`
on every tree path and finally on the input directory.  The function has
no `try`, so a raised `OSError` propagates as `.error`. -/
def setup_directory_structure (fs : FS) (output_dir input_dir : String) :
    Except String FS :=
  (setup_paths output_dir ++ [input_dir]).foldlM os_makedirs fs

/-- Processing date 2024-06-15 (month 6, week 3) used by concrete runs. -/
def dateJun2024 : Datetime := ⟨2024, 6, 15⟩

/-- A black-box extractor returning the same non-empty text for every
file. -/
def sampleExtract : String → String := fun _ => "invoice text"

/-- A black-box classifier ranking `Invoice` first. -/
def sampleClassifier : String → List String → Except String ClassifierResult :=
  fun _ _ => .ok ⟨["Invoice", "Protocol", "Report"], [9/10, 1/20, 1/20]⟩

/-- A filesystem on which moving `in/a.pdf` raises an `OSError`. -/
def fsMoveFail : FS := ⟨[], [], [], ["in/a.pdf"]⟩

/-- A filesystem on which creating `out/Invoices/2024/Month_6/Week_3`
raises an `OSError`. -/
def fsMkdirFail : FS := ⟨[], [], ["out/Invoices/2024/Month_6/Week_3"], []⟩

/-- A filesystem on which moving `in/b.pdf` raises an `OSError`. -/
def fsMoveFailB : FS := ⟨[], [], [], ["in/b.pdf"]⟩
theorem digitsChars_lt {n : Nat} (h : n < 10) : digitsChars n = [Nat.digitChar n] := by
  rw [digitsChars, if_pos h]

theorem digitsChars_ge {n : Nat} (h : ¬ n < 10) :
    digitsChars n = digitsChars (n / 10) ++ [Nat.digitChar (n % 10)] := by
  rw [digitsChars]
  exact if_neg h

theorem digitsChars_ne_nil (n : Nat) : digitsChars n ≠ [] := by
  by_cases h : n < 10
  · rw [digitsChars_lt h]; simp
  · rw [digitsChars_ge h]; simp

theorem toDigitsCore_succ (b f n : Nat) (l : List Char) :
    Nat.toDigitsCore b (f + 1) n l =
      (if n / b = 0 then Nat.digitChar (n % b) :: l
       else Nat.toDigitsCore b f (n / b) (Nat.digitChar (n % b) :: l)) := by
  simp [Nat.toDigitsCore]

theorem toDigitsCore_eq_digitsChars (f : Nat) :
    ∀ n l, n < 10 ^ (f + 1) → Nat.toDigitsCore 10 (f + 1) n l = digitsChars n ++ l := by
  induction f with
  | zero =>
    intro n l hn
    norm_num at hn
    have hdiv : n / 10 = 0 := Nat.div_eq_of_lt hn
    rw [toDigitsCore_succ, if_pos hdiv, digitsChars_lt hn, Nat.mod_eq_of_lt hn]
    simp
  | succ f ih =>
    intro n l hn
    by_cases hdiv : n / 10 = 0
    · have hn10 : n < 10 := by omega
      rw [toDigitsCore_succ, if_pos hdiv, digitsChars_lt hn10, Nat.mod_eq_of_lt hn10]
      simp
    · have hlt : n / 10 < 10 ^ (f + 1) := by
        rw [Nat.div_lt_iff_lt_mul (by omega)]
        calc n < 10 ^ (f + 1 + 1) := hn
        _ = 10 ^ (f + 1) * 10 := by ring
      have hn10 : ¬ n < 10 := by omega
      rw [toDigitsCore_succ, if_neg hdiv, ih (n / 10) (Nat.digitChar (n % 10) :: l) hlt,
        digitsChars_ge hn10]
      simp

theorem repr_eq_digitsChars (n : Nat) : Nat.repr n = (digitsChars n).asString := by
  have h : Nat.toDigitsCore 10 (n + 1) n [] = digitsChars n ++ [] :=
    toDigitsCore_eq_digitsChars n n []
      (lt_of_lt_of_le (Nat.lt_pow_self (by omega) n)
        (Nat.pow_le_pow_right (by omega) (Nat.le_succ n)))
  show (Nat.toDigitsCore 10 (n + 1) n []).asString = _
  rw [h, List.append_nil]

theorem digitChar_inj_lt : ∀ a, a < 10 → ∀ b, b < 10 →
    Nat.digitChar a = Nat.digitChar b → a = b := by decide

theorem append_singleton_inj {α : Type} {l1 l2 : List α} {a b : α}
    (h : l1 ++ [a] = l2 ++ [b]) : l1 = l2 ∧ a = b := by
  have h' := congrArg List.reverse h
  simp only [List.reverse_append, List.reverse_cons, List.reverse_nil, List.nil_append,
    List.singleton_append, List.cons.injEq] at h'
  exact ⟨List.reverse_injective h'.2, h'.1⟩

theorem digitsChars_inj (m : Nat) : ∀ n, digitsChars m = digitsChars n → m = n := by
  induction m using Nat.strong_induction_on with
  | _ m ih =>
    intro n h
    by_cases hm : m < 10 <;> by_cases hn : n < 10
    · rw [digitsChars_lt hm, digitsChars_lt hn] at h
      simp only [List.cons.injEq] at h
      exact digitChar_inj_lt m hm n hn h.1
    · exfalso
      rw [digitsChars_lt hm, digitsChars_ge hn] at h
      have h1 := congrArg List.length h
      simp only [List.length_cons, List.length_append, List.length_nil] at h1
      have hp : 0 < (digitsChars (n / 10)).length :=
        List.length_pos.mpr (digitsChars_ne_nil _)
      omega
    · exfalso
      rw [digitsChars_ge hm, digitsChars_lt hn] at h
      have h1 := congrArg List.length h
      simp only [List.length_cons, List.length_append, List.length_nil] at h1
      have hp : 0 < (digitsChars (m / 10)).length :=
        List.length_pos.mpr (digitsChars_ne_nil _)
      omega
    · rw [digitsChars_ge hm, digitsChars_ge hn] at h
      obtain ⟨h1, h2⟩ := append_singleton_inj h
      have hdiv : m / 10 = n / 10 :=
        ih (m / 10) (Nat.div_lt_self (by omega) (by omega)) (n / 10) h1
      have hmod : m % 10 = n % 10 :=
        digitChar_inj_lt _ (Nat.mod_lt _ (by omega)) _ (Nat.mod_lt _ (by omega)) h2
      omega

theorem nat_repr_data_inj {m n : Nat} (h : (Nat.repr m).data = (Nat.repr n).data) : m = n := by
  rw [repr_eq_digitsChars, repr_eq_digitsChars] at h
  exact digitsChars_inj m n h

/-- C1: for every day-of-month `d` in 1..31, `get_week_of_month` returns
`min(⌈d/7⌉, 5)`; in particular days 1–7 map to week 1, 8–14 to 2, 15–21 to
3, 22–28 to 4, and 29–31 to 5. -/
theorem get_week_of_month_spec (y mo d : Nat) (h1 : 1 ≤ d) (h2 : d ≤ 31) :
    get_week_of_month ⟨y, mo, d⟩ = min ((d + 6) / 7) 5
    ∧ (d ≤ 7 → get_week_of_month ⟨y, mo, d⟩ = 1)
    ∧ (8 ≤ d → d ≤ 14 → get_week_of_month ⟨y, mo, d⟩ = 2)
    ∧ (15 ≤ d → d ≤ 21 → get_week_of_month ⟨y, mo, d⟩ = 3)
    ∧ (22 ≤ d → d ≤ 28 → get_week_of_month ⟨y, mo, d⟩ = 4)
    ∧ (29 ≤ d → get_week_of_month ⟨y, mo, d⟩ = 5) := by
  simp only [get_week_of_month]
  refine ⟨by omega, fun _ => by omega, fun _ _ => by omega,
    fun _ _ => by omega, fun _ _ => by omega, fun _ => by omega⟩

/-- Concrete instance of `get_week_of_month_spec` at day 15. -/
theorem get_week_of_month_spec_witness :
    get_week_of_month ⟨2024, 6, 15⟩ = min ((15 + 6) / 7) 5 :=
  (get_week_of_month_spec 2024 6 15 (by decide) (by decide)).1

theorem dupCandidate_inj (base ext : String) : ∀ {c c' : Nat},
    dupCandidate base ext c = dupCandidate base ext c' → c = c' := by
  intro c c' h
  have hd := congrArg String.data h
  simp only [dupCandidate, String.data_append] at hd
  exact nat_repr_data_inj (List.append_cancel_left (List.append_cancel_right hd))

theorem os_path_exists_iff (fs : FS) (p : String) :
    os_path_exists fs p = true ↔ p ∈ fsEntries fs := by
  simp [os_path_exists, fsEntries, List.contains, List.elem_iff, List.mem_append]

theorem exists_free_dup_candidate (fs : FS) (base ext : String) (c : Nat) :
    ∃ k, c ≤ k ∧ k < c + ((fsEntries fs).length + 1) ∧
      os_path_exists fs (dupCandidate base ext k) = false := by
  by_contra hcon
  push_neg at hcon
  have hall : ∀ k, c ≤ k → k < c + ((fsEntries fs).length + 1) →
      dupCandidate base ext k ∈ fsEntries fs := by
    intro k hk1 hk2
    rw [← os_path_exists_iff]
    exact Bool.not_eq_false _ |>.mp (hcon k hk1 hk2)
  have hnodup : ((List.range' c ((fsEntries fs).length + 1)).map
      (dupCandidate base ext)).Nodup :=
    (List.nodup_range' c _).map (fun a b hab => dupCandidate_inj base ext hab)
  have hsub : (List.range' c ((fsEntries fs).length + 1)).map (dupCandidate base ext)
      ⊆ fsEntries fs := by
    intro x hx
    rw [List.mem_map] at hx
    obtain ⟨k, hk, rfl⟩ := hx
    rw [List.mem_range'_1] at hk
    exact hall k hk.1 hk.2
  have hlen := (List.subperm_of_subset hnodup hsub).length_le
  simp only [List.length_map, List.length_range'] at hlen
  omega

theorem findCounter_spec (fs : FS) (base ext : String) :
    ∀ (fuel c : Nat),
      (∃ k, c ≤ k ∧ k < c + fuel ∧ os_path_exists fs (dupCandidate base ext k) = false) →
      c ≤ findCounter fs base ext fuel c ∧
      os_path_exists fs (dupCandidate base ext (findCounter fs base ext fuel c)) = false ∧
      ∀ j, c ≤ j → j < findCounter fs base ext fuel c →
        os_path_exists fs (dupCandidate base ext j) = true := by
  intro fuel
  induction fuel with
  | zero =>
    rintro c ⟨k, hk1, hk2, -⟩
    omega
  | succ fuel ih =>
    rintro c ⟨k, hk1, hk2, hkfree⟩
    by_cases hc : os_path_exists fs (dupCandidate base ext c) = true
    · have heq : findCounter fs base ext (fuel + 1) c = findCounter fs base ext fuel (c + 1) := by
        simp [findCounter, hc]
      have hkc : c + 1 ≤ k := by
        rcases Nat.lt_or_ge c k with h | h
        · omega
        · have hck : k = c := by omega
          rw [hck] at hkfree
          rw [hkfree] at hc
          exact absurd hc (by simp)
      obtain ⟨ih1, ih2, ih3⟩ := ih (c + 1) ⟨k, hkc, by omega, hkfree⟩
      rw [heq]
      refine ⟨by omega, ih2, ?_⟩
      intro j hj1 hj2
      rcases Nat.eq_or_lt_of_le hj1 with hcj | hcj
      · rw [← hcj]; exact hc
      · exact ih3 j hcj hj2
    · have heq : findCounter fs base ext (fuel + 1) c = c := by
        simp [findCounter, hc]
      rw [heq]
      exact ⟨Nat.le_refl c, by simpa using hc,
        fun j hj1 hj2 => absurd (Nat.lt_of_le_of_lt hj1 hj2) (Nat.lt_irrefl c)⟩

/-- C2: duplicate resolution returns a non-existing target unchanged;
an existing one is split by `os.path.splitext` into `(stem, ext)` and
mapped to `stem_n.ext` for the smallest `n ≥ 1` whose candidate is
unused, so resolving `X.pdf` next to an existing `X.pdf` yields
`X_1.pdf` (`X_2.pdf` when `X_1.pdf` also exists), and the returned path
never exists at call time. -/
theorem resolve_duplicate_spec (fs : FS) (target : String) :
    (os_path_exists fs target = false → resolve_duplicate fs target = target)
    ∧ (os_path_exists fs target = true →
        ∃ n, 1 ≤ n ∧
          resolve_duplicate fs target =
            dupCandidate (os_path_splitext target).1 (os_path_splitext target).2 n ∧
          os_path_exists fs
            (dupCandidate (os_path_splitext target).1 (os_path_splitext target).2 n) = false ∧
          ∀ k, 1 ≤ k → k < n →
            os_path_exists fs
              (dupCandidate (os_path_splitext target).1 (os_path_splitext target).2 k) = true)
    ∧ os_path_exists fs (resolve_duplicate fs target) = false
    ∧ resolve_duplicate ⟨["X.pdf"], [], [], []⟩ "X.pdf" = "X_1.pdf"
    ∧ resolve_duplicate ⟨["X.pdf", "X_1.pdf"], [], [], []⟩ "X.pdf" = "X_2.pdf" := by
  have hfree := exists_free_dup_candidate fs (os_path_splitext target).1
    (os_path_splitext target).2 1
  obtain ⟨h1, h2, h3⟩ := findCounter_spec fs (os_path_splitext target).1
    (os_path_splitext target).2 ((fsEntries fs).length + 1) 1 hfree
  refine ⟨?_, ?_, ?_, by decide, by decide⟩
  · intro hne
    simp [resolve_duplicate, hne]
  · intro hex
    exact ⟨_, h1, by simp [resolve_duplicate, hex], h2, h3⟩
  · by_cases hex : os_path_exists fs target = true
    · simpa [resolve_duplicate, hex] using h2
    · have hne : os_path_exists fs target = false := by simpa using hex
      simp [resolve_duplicate, hne]

/-- Concrete instances of `resolve_duplicate_spec`: a fresh path passes
through unchanged, and resolving an existing `X.pdf` yields the least
free suffixed candidate. -/
theorem resolve_duplicate_spec_witness :
    resolve_duplicate ⟨["X.pdf"], [], [], []⟩ "Y.pdf" = "Y.pdf"
    ∧ (∃ n, 1 ≤ n ∧
        resolve_duplicate ⟨["X.pdf"], [], [], []⟩ "X.pdf" =
          dupCandidate (os_path_splitext "X.pdf").1 (os_path_splitext "X.pdf").2 n ∧
        os_path_exists ⟨["X.pdf"], [], [], []⟩
          (dupCandidate (os_path_splitext "X.pdf").1 (os_path_splitext "X.pdf").2 n) = false ∧
        ∀ k, 1 ≤ k → k < n →
          os_path_exists ⟨["X.pdf"], [], [], []⟩
            (dupCandidate (os_path_splitext "X.pdf").1 (os_path_splitext "X.pdf").2 k) = true) :=
  ⟨(resolve_duplicate_spec ⟨["X.pdf"], [], [], []⟩ "Y.pdf").1 (by decide),
   (resolve_duplicate_spec ⟨["X.pdf"], [], [], []⟩ "X.pdf").2.1 (by decide)⟩

/-- C3: path planning is pure and deterministic in the document type and
date: the target directory is exactly
`<output_root>/<dir_name>/<year>/Month_<month>/Week_<week>`, and two
calls on the same input yield the same string. -/
theorem plan_target_dir_spec (output_root doc_type : String) (date : Datetime) :
    plan_target_dir output_root doc_type date =
      output_root ++ "/" ++ label_dir doc_type ++ "/" ++ Nat.repr date.year
        ++ "/Month_" ++ Nat.repr date.month
        ++ "/Week_" ++ Nat.repr (get_week_of_month date)
    ∧ plan_target_dir output_root doc_type date = plan_target_dir output_root doc_type date := by
  have hM : ("/" : String) ++ "Month_" = "/Month_" := by decide
  have hW : ("/" : String) ++ "Week_" = "/Week_" := by decide
  refine ⟨?_, rfl⟩
  simp only [plan_target_dir, os_path_join, ← hM, ← hW, String.append_assoc]

/-- C4: the label→directory mapping sends `Invoice` to `Invoices`,
`Protocol` to `Protocols`, `Report` to `Reports`, and every other label
to the label with `"s"` appended. -/
theorem label_dir_spec (l : String) :
    label_dir "Invoice" = "Invoices"
    ∧ label_dir "Protocol" = "Protocols"
    ∧ label_dir "Report" = "Reports"
    ∧ (l ≠ "Invoice" → l ≠ "Protocol" → l ≠ "Report" → label_dir l = l ++ "s") := by
  refine ⟨by decide, by decide, by decide, ?_⟩
  intro h1 h2 h3
  have e1 : (l == "Invoice") = false := beq_eq_false_iff_ne.mpr h1
  have e2 : (l == "Protocol") = false := beq_eq_false_iff_ne.mpr h2
  have e3 : (l == "Report") = false := beq_eq_false_iff_ne.mpr h3
  simp [label_dir, dict_get, LABEL_TO_DIR, List.lookup, e1, e2, e3]

/-- Concrete instance of `label_dir_spec`: the unknown label `Foo` maps
to directory `Foos`. -/
theorem label_dir_spec_witness : label_dir "Foo" = "Foos" :=
  ((label_dir_spec "Foo").2.2.2 (by decide) (by decide) (by decide)).trans (by decide)

/-- C5: with an absent document type the move returns a skip outcome and
performs no filesystem mutation: no directory is created and no file is
moved. -/
theorem move_skip_spec (fs : FS) (output_root file_path : String) (date : Datetime) :
    move_file_to_correct_directory fs output_root file_path none date = (none, fs) := rfl

/-- C6: classification is absent on empty extracted text (without
invoking the classifier: any classifier gives the same result) and when
the classifier raises; otherwise it returns exactly the first element of
the ranked label list the classifier produced for the fixed three-label
candidate set. -/
theorem classify_document_spec (extract : String → String)
    (classifier : String → List String → Except String ClassifierResult)
    (file_path : String) :
    (extract file_path = "" →
      ∀ otherClassifier, classify_document extract otherClassifier file_path = none)
    ∧ (∀ e, classifier (extract file_path) CANDIDATE_LABELS = .error e →
        classify_document extract classifier file_path = none)
    ∧ (∀ result doc_type ls s ss, extract file_path ≠ "" →
        classifier (extract file_path) CANDIDATE_LABELS = .ok result →
        result.labels = doc_type :: ls → result.scores = s :: ss →
        classify_document extract classifier file_path = some doc_type) := by
  refine ⟨?_, ?_, ?_⟩
  · intro h c2
    simp [classify_document, h]
  · intro e he
    by_cases h : extract file_path = ""
    · simp [classify_document, h]
    · simp [classify_document, h, he]
  · intro result doc_type ls s ss hne hok hl hs
    simp [classify_document, hne, hok, hl, hs]

/-- Concrete instances of `classify_document_spec`: empty text gives an
absent result; a classifier ranking `Invoice` first gives `Invoice`. -/
theorem classify_document_spec_witness :
    classify_document (fun _ => "") sampleClassifier "a.pdf" = none
    ∧ classify_document sampleExtract sampleClassifier "a.pdf" = some "Invoice" :=
  ⟨(classify_document_spec (fun _ => "") sampleClassifier "a.pdf").1 rfl sampleClassifier,
   (classify_document_spec sampleExtract sampleClassifier "a.pdf").2.2
     ⟨["Invoice", "Protocol", "Report"], [9/10, 1/20, 1/20]⟩ "Invoice"
     ["Protocol", "Report"] (9/10) [1/20, 1/20] (by decide) rfl rfl rfl⟩

theorem move_mkdirFail_eq (fs : FS) (output_root file_path doc_type : String)
    (date : Datetime) (h : plan_target_dir output_root doc_type date ∈ fs.mkdirFails) :
    move_file_to_correct_directory fs output_root file_path (some doc_type) date = (none, fs) := by
  simp [move_file_to_correct_directory, os_makedirs, h]

theorem move_moveFail_none (fs : FS) (output_root file_path doc_type : String)
    (date : Datetime) (h : file_path ∈ fs.moveFails) :
    (move_file_to_correct_directory fs output_root file_path (some doc_type) date).1 = none := by
  by_cases hmem : plan_target_dir output_root doc_type date ∈ fs.mkdirFails
  · simp [move_file_to_correct_directory, os_makedirs, hmem]
  · simp [move_file_to_correct_directory, os_makedirs, hmem, shutil_move, h]

/-- C7 as frozen is refuted: on a filesystem error during target-directory
creation the move returns `None` — exactly the value returned for a
classification skip — so no failure value carrying the offending path and
the underlying error is returned to the caller. -/
theorem move_failure_counterexample :
    (move_file_to_correct_directory fsMkdirFail "out" "in/a.pdf" (some "Invoice")
        dateJun2024).1 = none
    ∧ move_file_to_correct_directory fsMkdirFail "out" "in/a.pdf" (some "Invoice") dateJun2024
        = move_file_to_correct_directory fsMkdirFail "out" "in/a.pdf" none dateJun2024 :=
  ⟨by decide, by decide⟩

/-- C7 amended: when a filesystem error occurs during target-directory
creation or the move itself, the move operation returns `None` (the
offending path and error are logged, not carried in the return value),
and the per-file loop continues to the next file: in the concrete
two-file batch whose first move fails, the second file is still
processed. -/
theorem move_failure_spec (fs : FS) (output_root file_path doc_type : String)
    (date : Datetime) :
    (plan_target_dir output_root doc_type date ∈ fs.mkdirFails →
      move_file_to_correct_directory fs output_root file_path (some doc_type) date
        = (none, fs))
    ∧ (file_path ∈ fs.moveFails →
      (move_file_to_correct_directory fs output_root file_path (some doc_type) date).1
        = none)
    ∧ (process_files fsMoveFail (.ok ["a.pdf", "b.pdf"]) "in" "out"
        sampleExtract sampleClassifier dateJun2024).1 = 1 :=
  ⟨move_mkdirFail_eq fs output_root file_path doc_type date,
   move_moveFail_none fs output_root file_path doc_type date,
   by decide⟩

/-- Concrete instances of `move_failure_spec` for both failure modes. -/
theorem move_failure_spec_witness :
    move_file_to_correct_directory fsMkdirFail "out" "in/c.pdf" (some "Invoice") dateJun2024
      = (none, fsMkdirFail)
    ∧ (move_file_to_correct_directory fsMoveFail "out" "in/a.pdf" (some "Invoice")
        dateJun2024).1 = none :=
  ⟨(move_failure_spec fsMkdirFail "out" "in/c.pdf" "Invoice" dateJun2024).1 (by decide),
   (move_failure_spec fsMoveFail "out" "in/a.pdf" "Invoice" dateJun2024).2.1 (by decide)⟩

/-- C8: when listing the input directory fails, the poll cycle sees zero
files: `process_files` returns 0, no file is touched, and (the embedding
being total) no exception propagates out of the iteration. -/
theorem process_files_listing_failure (fs : FS) (e : String)
    (input_dir output_root : String) (extract : String → String)
    (classifier : String → List String → Except String ClassifierResult)
    (date : Datetime) :
    process_files fs (.error e) input_dir output_root extract classifier date = (0, fs) := rfl

/-- C10: the move collapses every non-success outcome to `None` — skip,
directory-creation failure and move failure share the same return value,
so the caller cannot tell them apart — and `process_files` increments its
processed count only when the move returned a non-`None` target path. -/
theorem move_result_collapse (fs : FS) (output_root file_path doc_type : String)
    (date : Datetime) :
    move_file_to_correct_directory fs output_root file_path none date = (none, fs)
    ∧ (plan_target_dir output_root doc_type date ∈ fs.mkdirFails →
        (move_file_to_correct_directory fs output_root file_path (some doc_type) date).1
          = none)
    ∧ (file_path ∈ fs.moveFails →
        (move_file_to_correct_directory fs output_root file_path (some doc_type) date).1
          = none)
    ∧ ∀ (input_dir : String) (extract : String → String)
        (classifier : String → List String → Except String ClassifierResult)
        (acc : Nat × FS) (file_name : String),
        (process_one_file input_dir output_root extract classifier date acc file_name).1
            = acc.1
        ∨ ((process_one_file input_dir output_root extract classifier date acc file_name).1
              = acc.1 + 1
            ∧ ∃ dt s,
                classify_document extract classifier (os_path_join input_dir file_name)
                  = some dt
                ∧ (move_file_to_correct_directory acc.2 output_root
                    (os_path_join input_dir file_name) (some dt) date).1 = some s) := by
  refine ⟨rfl, fun h => by rw [move_mkdirFail_eq fs output_root file_path doc_type date h],
    move_moveFail_none fs output_root file_path doc_type date, ?_⟩
  intro input_dir extract classifier acc file_name
  cases hcl : classify_document extract classifier (os_path_join input_dir file_name) with
  | none => exact Or.inl (by simp [process_one_file, hcl])
  | some dt =>
    cases hres : (move_file_to_correct_directory acc.2 output_root
        (os_path_join input_dir file_name) (some dt) date).1 with
    | none => exact Or.inl (by simp [process_one_file, hcl, hres])
    | some s =>
      by_cases hs : s = ""
      · exact Or.inl (by simp [process_one_file, hcl, hres, hs])
      · exact Or.inr ⟨by simp [process_one_file, hcl, hres, hs], dt, s, rfl, hres⟩

/-- Concrete instances of `move_result_collapse` for both failure modes. -/
theorem move_result_collapse_witness :
    (move_file_to_correct_directory fsMkdirFail "out" "in/b.pdf" (some "Invoice")
        dateJun2024).1 = none
    ∧ (move_file_to_correct_directory fsMoveFailB "out" "in/b.pdf" (some "Invoice")
        dateJun2024).1 = none :=
  ⟨(move_result_collapse fsMkdirFail "out" "in/b.pdf" "Invoice" dateJun2024).2.1 (by decide),
   (move_result_collapse fsMoveFailB "out" "in/b.pdf" "Invoice" dateJun2024).2.2.1
     (by decide)⟩

theorem foldlM_makedirs_ok (paths : List String) :
    ∀ fs : FS, fs.mkdirFails = [] →
      paths.foldlM os_makedirs fs = .ok { fs with dirs := paths.reverse ++ fs.dirs } := by
  induction paths with
  | nil =>
    intro fs h
    rfl
  | cons p ps ih =>
    intro fs h
    have hstep : os_makedirs fs p = .ok { fs with dirs := p :: fs.dirs } := by
      simp [os_makedirs, h]
    rw [List.foldlM_cons, hstep]
    show ps.foldlM os_makedirs { fs with dirs := p :: fs.dirs } = _
    rw [ih { fs with dirs := p :: fs.dirs } (by simpa using h)]
    simp

/-- C9: startup pre-creates `<output_root>/Type/Year/Month_M/Week_W` for
every type in {Invoices, Protocols, Reports}, every year 2020..2030,
every month 1..12 and every week 1..5, with `exist_ok=True` creation, so
it succeeds on any filesystem on which no creation call raises — in
particular when the tree already exists. -/
theorem setup_directory_structure_spec (fs : FS) (output_root input_dir : String)
    (h : fs.mkdirFails = []) :
    ∃ fs', setup_directory_structure fs output_root input_dir = .ok fs' ∧
      ∀ doc_type year month week,
        doc_type ∈ DOCUMENT_TYPES → 2020 ≤ year → year ≤ 2030 →
        1 ≤ month → month ≤ 12 → 1 ≤ week → week ≤ 5 →
        os_path_join
          (os_path_join
            (os_path_join (os_path_join output_root doc_type) (Nat.repr year))
            ("Month_" ++ Nat.repr month))
          ("Week_" ++ Nat.repr week) ∈ fs'.dirs := by
  refine ⟨_, foldlM_makedirs_ok _ fs h, ?_⟩
  intro t y m w ht hy1 hy2 hm1 hm2 hw1 hw2
  simp only [List.mem_append, List.mem_reverse]
  refine Or.inl (Or.inl ?_)
  simp only [setup_paths, List.mem_flatMap, List.mem_map, List.mem_range'_1]
  exact ⟨t, ht, y, ⟨hy1, by omega⟩, m, ⟨hm1, by omega⟩, w, ⟨hw1, by omega⟩, rfl⟩

/-- Concrete instance of `setup_directory_structure_spec` on the default
configuration and an empty filesystem. -/
theorem setup_directory_structure_spec_witness :
    ∃ fs', setup_directory_structure ⟨[], [], [], []⟩ "./sorted_documents"
        "./incoming_documents" = .ok fs' ∧
      ∀ doc_type year month week,
        doc_type ∈ DOCUMENT_TYPES → 2020 ≤ year → year ≤ 2030 →
        1 ≤ month → month ≤ 12 → 1 ≤ week → week ≤ 5 →
        os_path_join
          (os_path_join
            (os_path_join (os_path_join "./sorted_documents" doc_type) (Nat.repr year))
            ("Month_" ++ Nat.repr month))
          ("Week_" ++ Nat.repr week) ∈ fs'.dirs :=
  setup_directory_structure_spec ⟨[], [], [], []⟩ "./sorted_documents"
    "./incoming_documents" rfl
